import Mathlib

/-
Formal model of the solana-token-creator scripts
(src/scripts/create_token.py and src/scripts/generate_report.py).

The scripts orchestrate an external command-line tool (solana / spl-token);
every external effect is made explicit here:
  - the outcome of each external-tool invocation is an input (`Env`,
    `ReportEnv`), one field per invocation the workflow can make;
  - runs return, besides the Python return value, the list of log lines
    written, the list of spawned commands, and the file writes performed;
  - wall-clock timestamps are threaded as opaque string parameters;
  - Python floats are modelled as exact rationals (the balance threshold
    0.01 becomes 1/100).
-/

deriving instance DecidableEq for Except

/-- Outcome of one external-tool invocation: with subprocess.run(check=True)
the call either returns captured stdout on exit status 0, or raises
CalledProcessError carrying diagnostic text on a nonzero exit. -/
inductive CmdResult where
  | ok (stdout : String)
  | err (stderr : String)
deriving DecidableEq, Repr

/-- An external command line, as the argv list handed to subprocess.run. -/
abbrev Cmd := List String

/-- Python ' '.join(command) (create_token.py:46). -/
def cmdStr (c : Cmd) : String := String.intercalate " " c

/-- Python str.strip() with no argument: drop leading and trailing
whitespace. -/
def pyStrip (s : String) : String :=
  String.mk (((s.data.dropWhile Char.isWhitespace).reverse.dropWhile Char.isWhitespace).reverse)

/-- Python str.split() with no argument: split on runs of whitespace,
discarding empty pieces. -/
def pySplit (s : String) : List String :=
  ((s.data.splitOnP Char.isWhitespace).filter (fun w => w ≠ [])).map String.mk

/-- Python str.split with separator newline (create_token.py:90,123): split
on every newline character, keeping empty pieces. -/
def pyLines (s : String) : List String :=
  (s.data.splitOnP (fun c => c == Char.ofNat 10)).map String.mk

/-- Python substring containment, `needle in hay` on str. -/
def strContains (hay needle : String) : Bool :=
  hay.data.tails.any (fun t => needle.data.isPrefixOf t)

/-- Numeric value of a digit string. -/
def digitsVal (l : List Char) : Nat :=
  l.foldl (fun a c => a * 10 + (c.toNat - 48)) 0

/-- Exact value of a decimal literal with integer and fractional digits. -/
def decimalVal (intPart fracPart : List Char) : ℚ :=
  (digitsVal intPart : ℚ) + (digitsVal fracPart : ℚ) / (10 : ℚ) ^ fracPart.length

/-- Unsigned part of the decimal-literal parse behind `pyFloat?`. -/
def pyFloatCore (cs : List Char) : Option ℚ :=
  let intPart := cs.takeWhile (fun c => c != Char.ofNat 46)
  let rest := cs.dropWhile (fun c => c != Char.ofNat 46)
  match rest with
  | [] =>
    if intPart ≠ [] ∧ intPart.all Char.isDigit then some (digitsVal intPart : ℚ) else none
  | _ :: fracPart =>
    if (intPart ≠ [] ∨ fracPart ≠ []) ∧ intPart.all Char.isDigit ∧ fracPart.all Char.isDigit then
      some (decimalVal intPart fracPart)
    else none

/-- Python float() (create_token.py:73) restricted to plain decimal
literals — optional sign, digits, optional fractional part — which is the
shape the external tool prints for balances. Returns none where float()
raises ValueError on such inputs; the value is kept exact as a rational
rather than rounded to binary floating point. -/
def pyFloat? (s : String) : Option ℚ :=
  match (pyStrip s).data with
  | [] => none
  | c :: cs =>
    if c = Char.ofNat 45 then (pyFloatCore cs).map (fun q => -q)
    else if c = Char.ofNat 43 then pyFloatCore cs
    else pyFloatCore (c :: cs)

/-- The external world for one Provisioner run: whether the wallet file
exists, and the outcome of each external-tool invocation the workflow can
make (each distinct command is invoked at most once per run). -/
structure Env where
  walletExists : Bool
  balanceRes : CmdResult
  createTokenRes : CmdResult
  createAccountRes : CmdResult
  mintRes : CmdResult
  supplyRes : CmdResult
  accountBalanceRes : CmdResult
  authorizeMintRes : CmdResult
  authorizeFreezeRes : CmdResult
deriving Repr

/-- run_command (create_token.py:44-64): logs the command line, runs it
with check=True, logs stdout when nonempty, and on a nonzero exit logs and
raises the wrapped error message. Returns the raised message or stdout,
plus the log lines written; the caller accounts for the spawned command. -/
def run_command (c : Cmd) (res : CmdResult) : Except String String × List String :=
  match res with
  | .ok out =>
    (.ok out,
      if out ≠ "" then ["Executing: " ++ cmdStr c, "Output: " ++ pyStrip out]
      else ["Executing: " ++ cmdStr c])
  | .err stderr =>
    (.error ("Command failed: " ++ cmdStr c ++ "\nError: " ++ stderr),
      ["Executing: " ++ cmdStr c,
       "Command failed: " ++ cmdStr c ++ "\nError: " ++ stderr])

/-- get_wallet_balance (create_token.py:66-76): queries `solana balance`,
parses the first whitespace-separated token of stdout as a float; every
failure — nonzero exit, empty output (IndexError), unparseable token
(ValueError) — is caught, logged, and yields 0.0. Exception texts of the
stdlib errors are abbreviated; no claim depends on them. -/
def get_wallet_balance (env : Env) (wallet : String) : ℚ × List String × List Cmd :=
  match run_command ["solana", "balance", "--keypair", wallet] env.balanceRes with
  | (.error e, logs) =>
    (0, logs ++ ["Failed to get wallet balance: " ++ e],
      [["solana", "balance", "--keypair", wallet]])
  | (.ok out, logs) =>
    match pySplit (pyStrip out) with
    | [] =>
      (0, logs ++ ["Failed to get wallet balance: list index out of range"],
        [["solana", "balance", "--keypair", wallet]])
    | t :: _ =>
      match pyFloat? t with
      | some q => (q, logs, [["solana", "balance", "--keypair", wallet]])
      | none =>
        (0, logs ++ ["Failed to get wallet balance: could not convert string to float"],
          [["solana", "balance", "--keypair", wallet]])

/-- The address-extraction scan shared by mint and account creation
(create_token.py:90-94 and 123-127): take the first stdout line containing
the marker and return its last whitespace-separated token. A matching line
always has at least one token since the marker itself is non-whitespace,
so the getLastD default is never the value actually used. -/
def extractAddr (marker out : String) : Option String :=
  (pyLines (pyStrip out)).findSome? (fun line =>
    if strContains line marker then some ((pySplit line).getLastD "") else none)

/-- create_token_mint (create_token.py:78-109): runs spl-token
create-token, extracts the mint address from the line marked
"Creating token", writes it to token_mint.txt, and returns it; a missing
marker (or an empty extracted token, which `if not self.token_mint` also
rejects) raises the extraction error. Returns the outcome, log lines,
spawned commands, and the token_mint.txt write if any. -/
def create_token_mint (env : Env) (wallet : String) (decimals : Int) :
    Except String String × List String × List Cmd × Option String :=
  match run_command ["spl-token", "create-token", "--keypair", wallet,
      "--decimals", toString decimals] env.createTokenRes with
  | (.error e, logs) =>
    (.error e, "Creating token mint..." :: logs ++ ["Failed to create token mint: " ++ e],
      [["spl-token", "create-token", "--keypair", wallet, "--decimals", toString decimals]],
      none)
  | (.ok out, logs) =>
    match extractAddr "Creating token" out with
    | none =>
      (.error "Could not extract token mint address from output",
        "Creating token mint..." :: logs ++
          ["Failed to create token mint: Could not extract token mint address from output"],
        [["spl-token", "create-token", "--keypair", wallet, "--decimals", toString decimals]],
        none)
    | some m =>
      if m = "" then
        (.error "Could not extract token mint address from output",
          "Creating token mint..." :: logs ++
            ["Failed to create token mint: Could not extract token mint address from output"],
          [["spl-token", "create-token", "--keypair", wallet, "--decimals", toString decimals]],
          none)
      else
        (.ok m, "Creating token mint..." :: logs ++ ["Token mint created: " ++ m],
          [["spl-token", "create-token", "--keypair", wallet, "--decimals", toString decimals]],
          some m)

/-- create_token_account (create_token.py:111-137): same extraction
contract as the mint step, with marker "Creating account"; `mint` is the
address held in self.token_mint. -/
def create_token_account (env : Env) (wallet mint : String) :
    Except String String × List String × List Cmd :=
  match run_command ["spl-token", "create-account", mint, "--keypair", wallet]
      env.createAccountRes with
  | (.error e, logs) =>
    (.error e,
      "Creating token account..." :: logs ++ ["Failed to create token account: " ++ e],
      [["spl-token", "create-account", mint, "--keypair", wallet]])
  | (.ok out, logs) =>
    match extractAddr "Creating account" out with
    | none =>
      (.error "Could not extract token account address from output",
        "Creating token account..." :: logs ++
          ["Failed to create token account: Could not extract token account address from output"],
        [["spl-token", "create-account", mint, "--keypair", wallet]])
    | some a =>
      if a = "" then
        (.error "Could not extract token account address from output",
          "Creating token account..." :: logs ++
            ["Failed to create token account: Could not extract token account address from output"],
          [["spl-token", "create-account", mint, "--keypair", wallet]])
      else
        (.ok a, "Creating token account..." :: logs ++ ["Token account created: " ++ a],
          [["spl-token", "create-account", mint, "--keypair", wallet]])

/-- mint_tokens (create_token.py:139-155): mints the supply; success is
the external tool's exit status alone, no output is extracted. -/
def mint_tokens (env : Env) (wallet mint : String) (amount : Int) :
    Except String Unit × List String × List Cmd :=
  match run_command ["spl-token", "mint", mint, toString amount, "--keypair", wallet]
      env.mintRes with
  | (.error e, logs) =>
    (.error e,
      ("Minting " ++ toString amount ++ " tokens...") :: logs ++
        ["Failed to mint tokens: " ++ e],
      [["spl-token", "mint", mint, toString amount, "--keypair", wallet]])
  | (.ok _, logs) =>
    (.ok (),
      ("Minting " ++ toString amount ++ " tokens...") :: logs ++
        ["Successfully minted " ++ toString amount ++ " tokens"],
      [["spl-token", "mint", mint, toString amount, "--keypair", wallet]])

/-- The metadata record assembled by create_metadata
(create_token.py:161-170). The decimals field is the literal 9 from the
source (line 167), not a parameter — the source's own comment on that line
says it should be passed as a parameter. created_at stands for
datetime.now().isoformat(). -/
structure Metadata where
  name : String
  symbol : String
  description : String
  image : String
  mint : Option String
  decimals : Int
  created_at : String
  network : String
deriving DecidableEq, Repr

/-- create_metadata (create_token.py:157-177): assembles the metadata
record — with decimals hardcoded to 9 — writes it to token_metadata.json
(the caller records the write; this function always performs it) and
returns it with its two log lines. -/
def create_metadata (name symbol description image_url : String)
    (mint : Option String) (network now : String) : Metadata × List String :=
  ({ name := name, symbol := symbol, description := description, image := image_url,
     mint := mint, decimals := 9, created_at := now, network := network },
   ["Creating token metadata...", "Metadata created and saved to token_metadata.json"])

/-- verify_token_creation (create_token.py:179-205): queries total supply
and then the holding-account balance purely for logging; any failure is
caught, logged as "Token verification failed", and yields false. -/
def verify_token_creation (env : Env) (mint account : String) :
    Bool × List String × List Cmd :=
  match run_command ["spl-token", "supply", mint] env.supplyRes with
  | (.error e, logs) =>
    (false, "Verifying token creation..." :: logs ++ ["Token verification failed: " ++ e],
      [["spl-token", "supply", mint]])
  | (.ok out1, logs1) =>
    match run_command ["spl-token", "balance", "--address", account]
        env.accountBalanceRes with
    | (.error e, logs2) =>
      (false,
        "Verifying token creation..." :: logs1 ++ ["Token supply: " ++ pyStrip out1] ++
          logs2 ++ ["Token verification failed: " ++ e],
        [["spl-token", "supply", mint], ["spl-token", "balance", "--address", account]])
    | (.ok out2, logs2) =>
      (true,
        "Verifying token creation..." :: logs1 ++ ["Token supply: " ++ pyStrip out1] ++
          logs2 ++ ["Token account balance: " ++ pyStrip out2],
        [["spl-token", "supply", mint], ["spl-token", "balance", "--address", account]])

/-- revoke_mint_authority (create_token.py:207-231): no-op returning false
when no mint is held; otherwise runs spl-token authorize. run_command only
returns normally on exit status 0 (check=True), so the source's
`returncode == 0` test is true on every normal return and its else branch
is dead; a nonzero exit raises, is caught here, and yields false. -/
def revoke_mint_authority (env : Env) (mint : Option String) :
    Bool × List String × List Cmd :=
  match mint with
  | none => (false, ["No token mint available for authority revocation"], [])
  | some m =>
    match run_command ["spl-token", "authorize", m, "mint", "--disable"]
        env.authorizeMintRes with
    | (.error e, logs) =>
      (false, "Revoking mint authority..." :: logs ++ ["Error revoking mint authority: " ++ e],
        [["spl-token", "authorize", m, "mint", "--disable"]])
    | (.ok _, logs) =>
      (true, "Revoking mint authority..." :: logs ++ ["Mint authority revoked successfully"],
        [["spl-token", "authorize", m, "mint", "--disable"]])

/-- revoke_freeze_authority (create_token.py:233-257): identical shape to
mint-authority revocation with the freeze subcommand. -/
def revoke_freeze_authority (env : Env) (mint : Option String) :
    Bool × List String × List Cmd :=
  match mint with
  | none => (false, ["No token mint available for authority revocation"], [])
  | some m =>
    match run_command ["spl-token", "authorize", m, "freeze", "--disable"]
        env.authorizeFreezeRes with
    | (.error e, logs) =>
      (false,
        "Revoking freeze authority..." :: logs ++ ["Error revoking freeze authority: " ++ e],
        [["spl-token", "authorize", m, "freeze", "--disable"]])
    | (.ok _, logs) =>
      (true,
        "Revoking freeze authority..." :: logs ++ ["Freeze authority revoked successfully"],
        [["spl-token", "authorize", m, "freeze", "--disable"]])

/-- The per-authority revocation summary dict (create_token.py:298-303):
each key is present exactly when that revocation was requested, carrying
the revocation call's boolean outcome. -/
structure RevocationResults where
  mint_authority_revoked : Option Bool
  freeze_authority_revoked : Option Bool
deriving DecidableEq, Repr

/-- The authority_revocation entry of the result (create_token.py:313-315):
absent when the revocation dict is empty, i.e. when neither revocation was
requested. -/
def revocationOutcome (env : Env) (mint : Option String) (rm rf : Bool) :
    Option RevocationResults :=
  if rm = false ∧ rf = false then none
  else
    some { mint_authority_revoked := if rm then some (revoke_mint_authority env mint).1 else none,
           freeze_authority_revoked := if rf then some (revoke_freeze_authority env mint).1 else none }

/-- The dict returned by create_token: the success record of lines 305-315
or the error record of lines 321-325. -/
inductive TokenResult where
  | success (mint_address : String) (token_account : String) (metadata : Metadata)
      (network : String) (authority_revocation : Option RevocationResults)
  | failure (error : String) (network : String)
deriving DecidableEq, Repr

/-- Truthiness of result["success"]. -/
def TokenResult.isSuccess : TokenResult → Bool
  | .success _ _ _ _ _ => true
  | .failure _ _ => false

/-- The authority_revocation key of the result dict; the failure dict never
carries one. -/
def TokenResult.authorityRevocation : TokenResult → Option RevocationResults
  | .success _ _ _ _ ar => ar
  | .failure _ _ => none

/-- Everything one call of create_token produces: the returned dict, the
log lines written (in order, excluding the constructor header), the
spawned commands (in order), and the token_mint.txt / token_metadata.json
writes if they happened. -/
structure RunOut where
  result : TokenResult
  logs : List String
  cmds : List Cmd
  mintFileWrite : Option String
  metadataWrite : Option Metadata

/-- Single quote character, used verbatim in a log line of the source. -/
def squote : String := String.singleton (Char.ofNat 39)

/-- create_token (create_token.py:259-327): balance check, mint creation,
account creation, minting, metadata, verification, optional revocations.
Each failure branch models the single except handler of lines 320-327,
which wraps the raised message into the error dict and logs it. The
balance threshold 0.01 of line 278 is the exact rational 1/100 here. -/
def create_token (env : Env) (wallet name symbol description : String)
    (supply decimals : Int) (image_url : String)
    (revokeMint revokeFreeze : Bool) (network now : String) : RunOut :=
  match get_wallet_balance env wallet with
  | (balance, blogs, bcmds) =>
    if balance < 1/100 then
      { result := .failure "Insufficient SOL balance for token creation" network
        logs := ("Starting token creation process for " ++ squote ++ name ++ squote ++ " (" ++ symbol ++ ")") ::
          blogs ++ ["Wallet balance: " ++ toString balance ++ " SOL",
            "Token creation failed: Insufficient SOL balance for token creation"]
        cmds := bcmds
        mintFileWrite := none
        metadataWrite := none }
    else
      match create_token_mint env wallet decimals with
      | (.error e, mlogs, mcmds, mw) =>
        { result := .failure e network
          logs := ("Starting token creation process for " ++ squote ++ name ++ squote ++ " (" ++ symbol ++ ")") ::
            blogs ++ ["Wallet balance: " ++ toString balance ++ " SOL"] ++ mlogs ++
            ["Token creation failed: " ++ e]
          cmds := bcmds ++ mcmds
          mintFileWrite := mw
          metadataWrite := none }
      | (.ok mint, mlogs, mcmds, mw) =>
        match create_token_account env wallet mint with
        | (.error e, alogs, acmds) =>
          { result := .failure e network
            logs := ("Starting token creation process for " ++ squote ++ name ++ squote ++ " (" ++ symbol ++ ")") ::
              blogs ++ ["Wallet balance: " ++ toString balance ++ " SOL"] ++ mlogs ++ alogs ++
              ["Token creation failed: " ++ e]
            cmds := bcmds ++ mcmds ++ acmds
            mintFileWrite := mw
            metadataWrite := none }
        | (.ok account, alogs, acmds) =>
          match mint_tokens env wallet mint supply with
          | (.error e, tlogs, tcmds) =>
            { result := .failure e network
              logs := ("Starting token creation process for " ++ squote ++ name ++ squote ++ " (" ++ symbol ++ ")") ::
                blogs ++ ["Wallet balance: " ++ toString balance ++ " SOL"] ++ mlogs ++ alogs ++
                tlogs ++ ["Token creation failed: " ++ e]
              cmds := bcmds ++ mcmds ++ acmds ++ tcmds
              mintFileWrite := mw
              metadataWrite := none }
          | (.ok _, tlogs, tcmds) =>
            match create_metadata name symbol description image_url (some mint) network now with
            | (md, mdlogs) =>
              match verify_token_creation env mint account with
              | (false, vlogs, vcmds) =>
                { result := .failure "Token verification failed" network
                  logs := ("Starting token creation process for " ++ squote ++ name ++ squote ++ " (" ++ symbol ++ ")") ::
                    blogs ++ ["Wallet balance: " ++ toString balance ++ " SOL"] ++ mlogs ++ alogs ++
                    tlogs ++ mdlogs ++ vlogs ++
                    ["Token creation failed: Token verification failed"]
                  cmds := bcmds ++ mcmds ++ acmds ++ tcmds ++ vcmds
                  mintFileWrite := mw
                  metadataWrite := some md }
              | (true, vlogs, vcmds) =>
                { result := .success mint account md network
                    (revocationOutcome env (some mint) revokeMint revokeFreeze)
                  logs := ("Starting token creation process for " ++ squote ++ name ++ squote ++ " (" ++ symbol ++ ")") ::
                    blogs ++ ["Wallet balance: " ++ toString balance ++ " SOL"] ++ mlogs ++ alogs ++
                    tlogs ++ mdlogs ++ vlogs ++
                    (if revokeMint then (revoke_mint_authority env (some mint)).2.1 else []) ++
                    (if revokeFreeze then (revoke_freeze_authority env (some mint)).2.1 else []) ++
                    ["Token creation completed successfully!"]
                  cmds := bcmds ++ mcmds ++ acmds ++ tcmds ++ vcmds ++
                    (if revokeMint then (revoke_mint_authority env (some mint)).2.2 else []) ++
                    (if revokeFreeze then (revoke_freeze_authority env (some mint)).2.2 else [])
                  mintFileWrite := mw
                  metadataWrite := some md }

/-- Working-directory state coupling the two scripts: the execution log
(as its list of written lines), the metadata file, and the mint-address
file. none means the file is absent. -/
structure FS where
  logFile : Option (List String)
  metadataFile : Option Metadata
  mintFile : Option String
deriving Repr

/-- The CLI arguments of create_token.py main after argparse
(lines 331-343); argparse itself restricts network to devnet or mainnet. -/
structure Args where
  wallet_path : String
  name : String
  symbol : String
  description : String
  supply : Int
  decimals : Int
  image_url : String
  revoke_mint_authority : Bool
  revoke_freeze_authority : Bool
  network : String
deriving Repr

/-- The explorer link printed by the success banner
(create_token.py:390-393): devnet gets the cluster query suffix, any other
network the bare address URL. -/
def mainExplorerUrl (network mint : String) : String :=
  if network = "devnet" then
    "https://explorer.solana.com/address/" ++ mint ++ "?cluster=devnet"
  else
    "https://explorer.solana.com/address/" ++ mint

/-- The log-file header written by SolanaTokenCreator.__init__
(create_token.py:27-31): title line with timestamp, network line, a rule of
50 equals signs, and the blank line from the trailing double newline. -/
def logHeader (network now : String) : List String :=
  ["Token Creation Log - " ++ now, "Network: " ++ network,
    String.mk (List.replicate 50 (Char.ofNat 61)), ""]

/-- The revocation block of the success banner (create_token.py:380-388);
decorative glyphs and indentation are elided. -/
def revocationBanner : Option RevocationResults → List String
  | none => []
  | some rr =>
    "Authority Revocation Results:" ::
      ((match rr.mint_authority_revoked with
        | some b => ["Mint Authority: " ++ (if b then "Success" else "Failed")]
        | none => []) ++
       (match rr.freeze_authority_revoked with
        | some b => ["Freeze Authority: " ++ (if b then "Success" else "Failed")]
        | none => []))

/-- Observable outcome of one whole invocation of create_token.py: process
exit status, final working-directory state, spawned commands, and printed
lines (decorations elided). -/
structure MainOut where
  exitCode : Nat
  fs : FS
  cmds : List Cmd
  printed : List String

/-- main of create_token.py (lines 330-396): wallet-existence, decimals and
supply validation — each exiting 1 before any object is constructed — then
construction of SolanaTokenCreator (which truncates the log file and writes
the header), the workflow, and the final banner. fs0 is the working
directory before the run; now and now2 model the clock at construction and
at metadata creation. -/
def mainEntry (env : Env) (args : Args) (fs0 : FS) (now now2 : String) : MainOut :=
  if env.walletExists = false then
    { exitCode := 1, fs := fs0, cmds := [],
      printed := ["Error: Wallet file not found: " ++ args.wallet_path] }
  else if args.decimals < 0 ∨ args.decimals > 9 then
    { exitCode := 1, fs := fs0, cmds := [],
      printed := ["Error: Decimals must be between 0 and 9"] }
  else if args.supply ≤ 0 then
    { exitCode := 1, fs := fs0, cmds := [],
      printed := ["Error: Supply must be greater than 0"] }
  else
    match create_token env args.wallet_path args.name args.symbol args.description
        args.supply args.decimals args.image_url args.revoke_mint_authority
        args.revoke_freeze_authority args.network now2 with
    | out =>
      match out.result with
      | .success mint acct _ nw _ =>
        { exitCode := 0
          fs := { logFile := some (logHeader args.network now ++ out.logs)
                  metadataFile := match out.metadataWrite with
                    | some md => some md
                    | none => fs0.metadataFile
                  mintFile := match out.mintFileWrite with
                    | some m => some m
                    | none => fs0.mintFile }
          cmds := out.cmds
          printed := ["Token created successfully!", "Mint Address: " ++ mint,
              "Token Account: " ++ acct, "Network: " ++ nw] ++
            revocationBanner out.result.authorityRevocation ++
            ["Explorer: " ++ mainExplorerUrl args.network mint] }
      | .failure e _ =>
        { exitCode := 1
          fs := { logFile := some (logHeader args.network now ++ out.logs)
                  metadataFile := match out.metadataWrite with
                    | some md => some md
                    | none => fs0.metadataFile
                  mintFile := match out.mintFileWrite with
                    | some m => some m
                    | none => fs0.mintFile }
          cmds := out.cmds
          printed := ["Token creation failed: " ++ e] }

/-- External queries made by one Report Renderer run
(generate_report.py:42,46): supply query and raw account query, plus
whether json.loads succeeds on the account query's stdout (stdlib behavior
on external text, treated as part of the environment). -/
structure ReportEnv where
  supplyRes : CmdResult
  accountRes : CmdResult
  accountJsonParses : Bool
deriving Repr

/-- The dict built by get_token_info; account_info is never rendered, so
the embedding keeps the raw text that parsed (none models the empty
dict). -/
structure TokenInfo where
  supply : String
  accountInfo : Option String
deriving DecidableEq, Repr

/-- get_token_info (generate_report.py:38-55). The renderer's run_command
variant returns None on a nonzero exit instead of raising, so a failed
query yields the placeholder; a json.loads failure is caught by the
enclosing handler and yields the full placeholder dict, discarding even a
successfully fetched supply. -/
def get_token_info (env : ReportEnv) : TokenInfo :=
  let supply := match env.supplyRes with
    | .ok out => pyStrip out
    | .err _ => "Unknown"
  match env.accountRes with
  | .ok out =>
    if env.accountJsonParses then { supply := supply, accountInfo := some out }
    else { supply := "Unknown", accountInfo := none }
  | .err _ => { supply := supply, accountInfo := none }

/-- load_metadata (generate_report.py:57-66): the persisted record when the
file exists, the empty dict (none) when absent. The filesystem model
stores records already structured, so the unreadable-file branch (also
yielding the empty dict) has no separate representation. -/
def load_metadata (fs : FS) : Option Metadata := fs.metadataFile

/-- load_creation_log (generate_report.py:68-77): the log text when the
file exists, a fixed placeholder when absent. -/
def load_creation_log (fs : FS) : String :=
  match fs.logFile with
  | some ls => String.intercalate "\n" ls
  | none => "Creation log not available"

/-- The explorer link in the rendered report (generate_report.py:86-89):
mainnet gets the bare address URL, any other network the cluster query
suffix. -/
def reportExplorerUrl (network mint : String) : String :=
  if network = "mainnet" then
    "https://explorer.solana.com/address/" ++ mint
  else
    "https://explorer.solana.com/address/" ++ mint ++ "?cluster=devnet"

/-- Python str.title() state machine: a cased character is uppercased after
a non-alphabetic character and lowercased after an alphabetic one. -/
def pyTitleAux : List Char → Bool → List Char
  | [], _ => []
  | c :: cs, prevAlpha =>
    (if prevAlpha then c.toLower else c.toUpper) :: pyTitleAux cs c.isAlpha

/-- Python str.title() on ASCII text (generate_report.py:265). -/
def pyTitle (s : String) : String :=
  String.mk (pyTitleAux s.data false)

/-- The dynamic fields interpolated into generate_html_report's template
(generate_report.py:91-316), in template order. The fixed HTML and CSS
wrapper is presentation only — the spec places templating and styling out
of scope — so the document is modelled by this record of its data. Every
metadata access goes through dict .get with the default written in the
source; rawMetadata is the loaded dict that json.dumps serializes
verbatim (none is the empty dict). -/
structure Report where
  titleName : String
  headerName : String
  generatedAt : String
  name : String
  symbol : String
  description : String
  decimals : String
  network : String
  status : String
  supply : String
  created : String
  mintAddress : String
  explorerUrl : String
  walletSection : Option String
  imageSection : Option (String × String)
  creationLog : String
  rawMetadata : Option Metadata
deriving DecidableEq, Repr

/-- generate_html_report (generate_report.py:79-318): fetches live info,
loads the artifacts, picks the explorer URL, and fills the template. The
function is total: every input state yields a complete document. -/
def generate_html_report (env : ReportEnv) (fs : FS)
    (mint network wallet_address now : String) : Report :=
  let tokenInfo := get_token_info env
  let metadata := load_metadata fs
  { titleName := (metadata.map Metadata.name).getD "Unknown Token"
    headerName := (metadata.map Metadata.name).getD "Token Creation Report"
    generatedAt := now
    name := (metadata.map Metadata.name).getD "N/A"
    symbol := (metadata.map Metadata.symbol).getD "N/A"
    description := (metadata.map Metadata.description).getD "N/A"
    decimals := (metadata.map (fun md => toString md.decimals)).getD "N/A"
    network := pyTitle network
    status := "Created Successfully"
    supply := tokenInfo.supply
    created := (metadata.map Metadata.created_at).getD "N/A"
    mintAddress := mint
    explorerUrl := reportExplorerUrl network mint
    walletSection := if wallet_address ≠ "" then some wallet_address else none
    imageSection := match metadata with
      | some md => if md.image ≠ "" then some (md.image, md.image) else none
      | none => none
    creationLog := load_creation_log fs
    rawMetadata := metadata }

/-- save_report (generate_report.py:320-329): renders and writes the fixed
output file name. -/
def save_report (env : ReportEnv) (fs : FS)
    (mint network wallet_address now : String) : Report × String :=
  (generate_html_report env fs mint network wallet_address now, "token_report.html")

/-- A mint address of the shape the external tool prints. -/
def mintAddr : String := "So11111111111111111111111111111111111111112"

/-- A holding-account address of the same shape. -/
def acctAddr : String := "7UX2i7SucgLMQcfZ75s3VXmZZY4YRUyJN9X1RgfMoDUi"

/-- A run of the external tool in which every invocation succeeds with
well-formed output. -/
def envOK : Env :=
  { walletExists := true
    balanceRes := .ok "2.5 SOL"
    createTokenRes := .ok ("Creating token " ++ mintAddr ++ "\n\nSignature: 3rcs9Tb")
    createAccountRes := .ok ("Creating account " ++ acctAddr ++ "\n\nSignature: 4sdt0Uc")
    mintRes := .ok "Signature: 5teu1Vd"
    supplyRes := .ok "500"
    accountBalanceRes := .ok "500"
    authorizeMintRes := .ok "Signature: 6ufv2We"
    authorizeFreezeRes := .ok "Signature: 7vgw3Xf" }

/-- envOK except that the verification-time supply query fails. -/
def envVerifyFail : Env := { envOK with supplyRes := .err "RPC node unavailable" }

/-- envOK except that the freeze-authority revocation call fails. -/
def envFreezeFail : Env := { envOK with authorizeFreezeRes := .err "unable to authorize" }

/-- envOK except that the balance query itself fails. -/
def envBalanceFail : Env := { envOK with balanceRes := .err "connection refused" }

/-- envOK except that mint-creation stdout lacks the marker line. -/
def envNoMarker : Env := { envOK with createTokenRes := .ok "Signature: 3rcs9Tb" }

/-- envOK except that the wallet balance is below the 0.01 threshold. -/
def envLowBalance : Env := { envOK with balanceRes := .ok "0.005 SOL" }

/-- An empty working directory. -/
def emptyFS : FS := { logFile := none, metadataFile := none, mintFile := none }

/-- Valid CLI arguments: decimals 6, supply 500, no revocations. -/
def argsOK : Args :=
  { wallet_path := "wallet.json", name := "Test", symbol := "TST", description := ""
    supply := 500, decimals := 6, image_url := "", revoke_mint_authority := false
    revoke_freeze_authority := false, network := "devnet" }

/-- argsOK with the out-of-range decimals value 10. -/
def argsDecimals10 : Args := { argsOK with decimals := 10 }

/-- argsOK with the out-of-range decimals value -1. -/
def argsDecimalsNeg : Args := { argsOK with decimals := -1 }

/-- A scan that returns none on every element finds nothing. -/
theorem findSome?_eq_none_of_all {α β : Type} (f : α → Option β) :
    ∀ l : List α, (∀ x ∈ l, f x = none) → l.findSome? f = none := by
  intro l h
  induction l with
  | nil => rfl
  | cons a l ih =>
    have ha := h a (List.mem_cons_self a l)
    rw [List.findSome?_cons]
    rw [ha]
    exact ih (fun x hx => h x (List.mem_cons_of_mem a hx))

/-- When no stdout line contains the marker, extraction fails. -/
theorem extractAddr_eq_none (marker out : String)
    (h : ∀ l ∈ pyLines (pyStrip out), strContains l marker = false) :
    extractAddr marker out = none := by
  unfold extractAddr
  apply findSome?_eq_none_of_all
  intro x hx
  rw [h x hx]
  rfl

/-- get_wallet_balance spawns exactly the balance query. -/
theorem gwb_cmds (env : Env) (w : String) :
    (get_wallet_balance env w).2.2 = [["solana", "balance", "--keypair", w]] := by
  unfold get_wallet_balance run_command
  rcases env.balanceRes with out | e
  · dsimp only
    rcases pySplit (pyStrip out) with _ | ⟨t, ts⟩
    · rfl
    · dsimp only
      rcases pyFloat? t with _ | q <;> rfl
  · rfl

/-- create_token_mint spawns exactly the create-token call. -/
theorem ctm_cmds (env : Env) (w : String) (d : Int) :
    (create_token_mint env w d).2.2.1 =
      [["spl-token", "create-token", "--keypair", w, "--decimals", toString d]] := by
  unfold create_token_mint run_command
  rcases env.createTokenRes with out | e
  · dsimp only
    rcases extractAddr "Creating token" out with _ | m
    · rfl
    · dsimp only
      by_cases hm : m = "" <;> simp [hm]
  · rfl

/-- A nonzero exit or a marker-free stdout makes the mint step raise the
extraction error; this lemma covers the marker-free case. -/
theorem ctm_no_marker (env : Env) (w : String) (d : Int) (out : String)
    (hok : env.createTokenRes = CmdResult.ok out)
    (hext : extractAddr "Creating token" out = none) :
    (create_token_mint env w d).1 =
      Except.error "Could not extract token mint address from output" := by
  unfold create_token_mint run_command
  rw [hok]
  dsimp only
  rw [hext]

/-- A failing balance query, empty stdout, or unparseable first token: the
conditions under which float() never yields a value. -/
def balanceQueryFails (r : CmdResult) : Bool :=
  match r with
  | .err _ => true
  | .ok out =>
    match pySplit (pyStrip out) with
    | [] => true
    | t :: _ => (pyFloat? t).isNone

/-- Under any of those failures get_wallet_balance returns 0.0. -/
theorem gwb_zero (env : Env) (w : String)
    (h : balanceQueryFails env.balanceRes = true) :
    (get_wallet_balance env w).1 = 0 := by
  unfold get_wallet_balance run_command
  unfold balanceQueryFails at h
  rcases hr : env.balanceRes with out | e
  · rw [hr] at h
    dsimp only at h ⊢
    rcases hs : pySplit (pyStrip out) with _ | ⟨t, ts⟩
    · rfl
    · rw [hs] at h
      dsimp only at h ⊢
      rcases hf : pyFloat? t with _ | q
      · rfl
      · rw [hf] at h
        simp [Option.isNone] at h
  · rfl

/-- A balance below the threshold fails the run right after the balance
check: the error dict carries the insufficient-funds message and the only
spawned commands are the balance query's. -/
theorem create_token_insufficient (env : Env)
    (wallet name symbol description : String) (supply decimals : Int)
    (image_url : String) (rm rf : Bool) (network now : String)
    (h : (get_wallet_balance env wallet).1 < 1/100) :
    (create_token env wallet name symbol description supply decimals image_url
        rm rf network now).result =
      TokenResult.failure "Insufficient SOL balance for token creation" network ∧
    (create_token env wallet name symbol description supply decimals image_url
        rm rf network now).cmds = (get_wallet_balance env wallet).2.2 := by
  rcases hg : get_wallet_balance env wallet with ⟨bal, blogs, bcmds⟩
  rw [hg] at h
  dsimp only at h
  constructor <;>
    · unfold create_token
      rw [hg]
      dsimp only
      rw [if_pos h]

/-- A raising mint-creation step fails the whole run with the raised
message; only the balance query and the mint-creation call were spawned. -/
theorem create_token_mint_error_spec (env : Env)
    (wallet name symbol description : String) (supply decimals : Int)
    (image_url : String) (rm rf : Bool) (network now e : String)
    (hbal : ¬ (get_wallet_balance env wallet).1 < 1/100)
    (hm : (create_token_mint env wallet decimals).1 = Except.error e) :
    (create_token env wallet name symbol description supply decimals image_url
        rm rf network now).result = TokenResult.failure e network ∧
    (create_token env wallet name symbol description supply decimals image_url
        rm rf network now).cmds =
      (get_wallet_balance env wallet).2.2 ++ (create_token_mint env wallet decimals).2.2.1 := by
  rcases hg : get_wallet_balance env wallet with ⟨bal, blogs, bcmds⟩
  rcases hmt : create_token_mint env wallet decimals with ⟨mres, mlogs, mcmds, mw⟩
  rw [hg] at hbal
  rw [hmt] at hm
  dsimp only at hbal hm
  subst hm
  constructor <;>
    · unfold create_token
      rw [hg]
      dsimp only
      rw [if_neg hbal, hmt]

/-- Once the balance check, mint creation, account creation and minting
have all succeeded, the run's outcome is decided by the verification step:
false yields the verification-failure error dict, true yields the success
dict carrying the hardcoded-decimals metadata record and the revocation
summary for the requested flags. -/
theorem create_token_run_spec (env : Env)
    (wallet name symbol description : String) (supply decimals : Int)
    (image_url : String) (rm rf : Bool) (network now mint account : String) (b : Bool)
    (hbal : ¬ (get_wallet_balance env wallet).1 < 1/100)
    (hmint : (create_token_mint env wallet decimals).1 = Except.ok mint)
    (hacct : (create_token_account env wallet mint).1 = Except.ok account)
    (hmt : (mint_tokens env wallet mint supply).1 = Except.ok ())
    (hver : (verify_token_creation env mint account).1 = b) :
    (create_token env wallet name symbol description supply decimals image_url
        rm rf network now).result =
      if b then
        TokenResult.success mint account
          { name := name, symbol := symbol, description := description, image := image_url,
            mint := some mint, decimals := 9, created_at := now, network := network }
          network (revocationOutcome env (some mint) rm rf)
      else TokenResult.failure "Token verification failed" network := by
  rcases hg : get_wallet_balance env wallet with ⟨bal, blogs, bcmds⟩
  rcases hm : create_token_mint env wallet decimals with ⟨mres, mlogs, mcmds, mw⟩
  rcases ha : create_token_account env wallet mint with ⟨ares, alogs, acmds⟩
  rcases ht : mint_tokens env wallet mint supply with ⟨tres, tlogs, tcmds⟩
  rcases hv : verify_token_creation env mint account with ⟨vres, vlogs, vcmds⟩
  rw [hg] at hbal
  rw [hm] at hmint
  rw [ha] at hacct
  rw [ht] at hmt
  rw [hv] at hver
  dsimp only at hbal hmint hacct hmt hver
  subst hmint
  subst hacct
  subst hmt
  subst hver
  unfold create_token
  rw [hg]
  dsimp only
  rw [if_neg hbal, hm]
  dsimp only
  rw [ha]
  dsimp only
  rw [ht]
  dsimp only [create_metadata]
  rw [hv]
  cases vres <;> rfl

/-- C1: on a fully successful run invoked with caller-supplied decimals 6,
the metadata record assembled and persisted by create_metadata carries
decimals = 9 — the constant hardcoded at create_token.py:167, whose own
comment says it should be a parameter — and not the caller's 6. The claim
that the persisted decimals equals the caller's value fails on the code. -/
theorem c1_metadata_decimals_hardcoded :
    ((create_token envOK "wallet.json" "Test" "TST" "" 500 6 "" false false
        "devnet" "T0").result.isSuccess = true) ∧
    ((create_token envOK "wallet.json" "Test" "TST" "" 500 6 "" false false
        "devnet" "T0").metadataWrite.map Metadata.decimals = some 9) ∧
    ((create_token envOK "wallet.json" "Test" "TST" "" 500 6 "" false false
        "devnet" "T0").metadataWrite.map Metadata.decimals ≠ some 6) := by
  with_unfolding_all decide

/-- C2 counterexample: a concrete run in which every on-chain step succeeds
but the verification-time supply query errors. verify_token_creation
returns false, and — against the claim that the workflow still terminates
with a success outcome — create_token returns the failure dict. -/
theorem c2_verification_failure_cex :
    ((verify_token_creation envVerifyFail mintAddr acctAddr).1 = false) ∧
    ((create_token envVerifyFail "wallet.json" "Test" "TST" "" 500 6 ""
        false false "devnet" "T0").result.isSuccess = false) := by
  with_unfolding_all decide

/-- C2 (amended): whenever the workflow reaches the verification step and
that step fails, create_token terminates with an overall failure result
carrying the error "Token verification failed" (create_token.py:294-295
raises, and the handler at 320-327 wraps it into the error dict). -/
theorem c2_verification_failure_aborts (env : Env)
    (wallet name symbol description : String) (supply decimals : Int)
    (image_url : String) (rm rf : Bool) (network now mint account : String)
    (hbal : ¬ (get_wallet_balance env wallet).1 < 1/100)
    (hmint : (create_token_mint env wallet decimals).1 = Except.ok mint)
    (hacct : (create_token_account env wallet mint).1 = Except.ok account)
    (hmt : (mint_tokens env wallet mint supply).1 = Except.ok ())
    (hver : (verify_token_creation env mint account).1 = false) :
    (create_token env wallet name symbol description supply decimals image_url
        rm rf network now).result =
      TokenResult.failure "Token verification failed" network := by
  have h := create_token_run_spec env wallet name symbol description supply decimals
    image_url rm rf network now mint account false hbal hmint hacct hmt hver
  simpa using h

/-- Witness for c2_verification_failure_aborts at the concrete failing
environment. -/
theorem c2_verification_failure_aborts_witness :
    (create_token envVerifyFail "wallet.json" "Test" "TST" "" 500 6 ""
        false false "devnet" "T0").result =
      TokenResult.failure "Token verification failed" "devnet" :=
  c2_verification_failure_aborts envVerifyFail "wallet.json" "Test" "TST" "" 500 6 ""
    false false "devnet" "T0" mintAddr acctAddr
    (by with_unfolding_all decide) (by with_unfolding_all decide)
    (by with_unfolding_all decide) (by with_unfolding_all decide)
    (by with_unfolding_all decide)

/-- C3 counterexample: an invocation that fails CLI argument validation
(decimals = 10) in an empty working directory exits 1 before
SolanaTokenCreator.__init__ runs (create_token.py:350-352 precede line
359), so no execution log file exists afterwards — against the claim that
the log exists with at least one entry after any invocation. -/
theorem c3_validation_failure_no_log_cex :
    ((mainEntry envOK argsDecimals10 emptyFS "T0" "T1").exitCode = 1) ∧
    ((mainEntry envOK argsDecimals10 emptyFS "T0" "T1").fs.logFile = none) ∧
    ((mainEntry envOK argsDecimals10 emptyFS "T0" "T1").cmds = []) := by
  with_unfolding_all decide

/-- C3 (amended): after every invocation that passes CLI argument
validation — wallet file present, decimals within 0..9, positive supply —
the execution log file exists and contains at least one entry, whether the
workflow then succeeds or fails at any step; an invocation failing
argument validation exits before the log file is created. -/
theorem c3_log_after_validation (env : Env) (args : Args) (fs0 : FS)
    (now now2 : String)
    (hw : env.walletExists = true)
    (hd : ¬ (args.decimals < 0 ∨ args.decimals > 9))
    (hs : ¬ args.supply ≤ 0) :
    ∃ ls, (mainEntry env args fs0 now now2).fs.logFile = some ls ∧ ls ≠ [] := by
  unfold mainEntry
  rw [hw]
  rw [if_neg (by simp), if_neg hd, if_neg hs]
  dsimp only
  split
  · exact ⟨_, rfl, by simp [logHeader]⟩
  · exact ⟨_, rfl, by simp [logHeader]⟩

/-- Witness for c3_log_after_validation at a concrete invocation whose
workflow fails (the balance query errors): the log still exists and is
nonempty. -/
theorem c3_log_after_validation_witness :
    ∃ ls, (mainEntry envBalanceFail argsOK emptyFS "T0" "T1").fs.logFile = some ls ∧
      ls ≠ [] :=
  c3_log_after_validation envBalanceFail argsOK emptyFS "T0" "T1"
    (by with_unfolding_all decide) (by with_unfolding_all decide)
    (by with_unfolding_all decide)

/-- C4: when the workflow reaches mint creation and the external tool's
stdout has no line containing the "Creating token" marker, create_token
fails with the extraction error and never spawns the account-creation
command: the spawned commands are exactly the balance query and the
create-token call. -/
theorem c4_missing_marker_aborts (env : Env)
    (wallet name symbol description : String) (supply decimals : Int)
    (image_url : String) (rm rf : Bool) (network now out : String)
    (hbal : ¬ (get_wallet_balance env wallet).1 < 1/100)
    (hok : env.createTokenRes = CmdResult.ok out)
    (hmk : ∀ l ∈ pyLines (pyStrip out), strContains l "Creating token" = false) :
    ((create_token env wallet name symbol description supply decimals image_url
        rm rf network now).result =
      TokenResult.failure "Could not extract token mint address from output" network) ∧
    ((create_token env wallet name symbol description supply decimals image_url
        rm rf network now).cmds =
      [["solana", "balance", "--keypair", wallet],
       ["spl-token", "create-token", "--keypair", wallet, "--decimals", toString decimals]]) ∧
    (∀ c ∈ (create_token env wallet name symbol description supply decimals image_url
        rm rf network now).cmds, c.take 2 ≠ ["spl-token", "create-account"]) := by
  have hext := extractAddr_eq_none "Creating token" out hmk
  have hctm := ctm_no_marker env wallet decimals out hok hext
  obtain ⟨h1, h2⟩ := create_token_mint_error_spec env wallet name symbol description
    supply decimals image_url rm rf network now _ hbal hctm
  rw [gwb_cmds, ctm_cmds] at h2
  refine ⟨h1, h2, ?_⟩
  rw [h2]
  intro c hc
  rcases List.mem_cons.mp hc with hc1 | hc2
  · subst hc1
    show (["solana", "balance"] : List String) ≠ ["spl-token", "create-account"]
    decide
  · rcases List.mem_cons.mp hc2 with hc3 | hc4
    · subst hc3
      show (["spl-token", "create-token"] : List String) ≠ ["spl-token", "create-account"]
      decide
    · exact absurd hc4 (List.not_mem_nil c)

/-- Witness for c4_missing_marker_aborts at a concrete environment whose
mint-creation stdout lacks the marker line. -/
theorem c4_missing_marker_aborts_witness :
    ((create_token envNoMarker "wallet.json" "Test" "TST" "" 500 6 "" false false
        "devnet" "T0").result =
      TokenResult.failure "Could not extract token mint address from output" "devnet") ∧
    ((create_token envNoMarker "wallet.json" "Test" "TST" "" 500 6 "" false false
        "devnet" "T0").cmds =
      [["solana", "balance", "--keypair", "wallet.json"],
       ["spl-token", "create-token", "--keypair", "wallet.json", "--decimals",
        toString (6 : Int)]]) ∧
    (∀ c ∈ (create_token envNoMarker "wallet.json" "Test" "TST" "" 500 6 "" false false
        "devnet" "T0").cmds, c.take 2 ≠ ["spl-token", "create-account"]) :=
  c4_missing_marker_aborts envNoMarker "wallet.json" "Test" "TST" "" 500 6 ""
    false false "devnet" "T0" "Signature: 3rcs9Tb"
    (by with_unfolding_all decide) (by with_unfolding_all decide)
    (by with_unfolding_all decide)

/-- C5: a wallet balance strictly below the 0.01 threshold makes
create_token terminate with the insufficient-funds failure dict right
after the balance check: the only spawned command is the balance query, so
in particular the mint-creation call is never invoked. -/
theorem c5_insufficient_balance_aborts (env : Env)
    (wallet name symbol description : String) (supply decimals : Int)
    (image_url : String) (rm rf : Bool) (network now : String)
    (h : (get_wallet_balance env wallet).1 < 1/100) :
    ((create_token env wallet name symbol description supply decimals image_url
        rm rf network now).result =
      TokenResult.failure "Insufficient SOL balance for token creation" network) ∧
    ((create_token env wallet name symbol description supply decimals image_url
        rm rf network now).cmds = [["solana", "balance", "--keypair", wallet]]) ∧
    (∀ c ∈ (create_token env wallet name symbol description supply decimals image_url
        rm rf network now).cmds, c.take 2 ≠ ["spl-token", "create-token"]) := by
  obtain ⟨h1, h2⟩ := create_token_insufficient env wallet name symbol description
    supply decimals image_url rm rf network now h
  rw [gwb_cmds] at h2
  refine ⟨h1, h2, ?_⟩
  rw [h2]
  intro c hc
  rcases List.mem_cons.mp hc with hc1 | hc2
  · subst hc1
    show (["solana", "balance"] : List String) ≠ ["spl-token", "create-token"]
    decide
  · exact absurd hc2 (List.not_mem_nil c)

/-- Witness for c5_insufficient_balance_aborts at a concrete balance of
0.005 SOL. -/
theorem c5_insufficient_balance_aborts_witness :
    ((create_token envLowBalance "wallet.json" "Test" "TST" "" 500 6 "" false false
        "devnet" "T0").result =
      TokenResult.failure "Insufficient SOL balance for token creation" "devnet") ∧
    ((create_token envLowBalance "wallet.json" "Test" "TST" "" 500 6 "" false false
        "devnet" "T0").cmds = [["solana", "balance", "--keypair", "wallet.json"]]) ∧
    (∀ c ∈ (create_token envLowBalance "wallet.json" "Test" "TST" "" 500 6 "" false false
        "devnet" "T0").cmds, c.take 2 ≠ ["spl-token", "create-token"]) :=
  c5_insufficient_balance_aborts envLowBalance "wallet.json" "Test" "TST" "" 500 6 ""
    false false "devnet" "T0" (by with_unfolding_all decide)

/-- C6: a decimals argument outside 0..9 makes main exit 1 during argument
validation with no external command spawned — either at the decimals check
itself or, when the wallet file is also missing, at the wallet check that
precedes it; in both cases validation exits before any subprocess call. -/
theorem c6_invalid_decimals_no_spawn (env : Env) (args : Args) (fs0 : FS)
    (now now2 : String)
    (h : args.decimals < 0 ∨ args.decimals > 9) :
    ((mainEntry env args fs0 now now2).exitCode = 1) ∧
    ((mainEntry env args fs0 now now2).cmds = []) := by
  unfold mainEntry
  cases hw : env.walletExists
  · rw [if_pos rfl]
    exact ⟨rfl, rfl⟩
  · rw [if_neg (by simp), if_pos h]
    exact ⟨rfl, rfl⟩

/-- Witness for c6_invalid_decimals_no_spawn at decimals = -1. -/
theorem c6_invalid_decimals_no_spawn_witness :
    ((mainEntry envOK argsDecimalsNeg emptyFS "T0" "T1").exitCode = 1) ∧
    ((mainEntry envOK argsDecimalsNeg emptyFS "T0" "T1").cmds = []) :=
  c6_invalid_decimals_no_spawn envOK argsDecimalsNeg emptyFS "T0" "T1"
    (by with_unfolding_all decide)

/-- C7: on a run that reaches the revocation stage with only
freeze-authority revocation requested, the result dict's
authority_revocation entry carries a freeze_authority_revoked key with the
revocation call's outcome and no mint_authority_revoked key; and for every
choice of revocation flags the overall result stays a success — the
hypotheses place no constraint on the authorize calls' outcomes, so a
failed revocation never turns the result into a failure. -/
theorem c7_freeze_only_revocation (env : Env)
    (wallet name symbol description : String) (supply decimals : Int)
    (image_url : String) (network now mint account : String)
    (hbal : ¬ (get_wallet_balance env wallet).1 < 1/100)
    (hmint : (create_token_mint env wallet decimals).1 = Except.ok mint)
    (hacct : (create_token_account env wallet mint).1 = Except.ok account)
    (hmt : (mint_tokens env wallet mint supply).1 = Except.ok ())
    (hver : (verify_token_creation env mint account).1 = true) :
    ((create_token env wallet name symbol description supply decimals image_url
        false true network now).result.authorityRevocation =
      some { mint_authority_revoked := none,
             freeze_authority_revoked := some (revoke_freeze_authority env (some mint)).1 }) ∧
    (∀ rm rf : Bool,
      (create_token env wallet name symbol description supply decimals image_url
          rm rf network now).result.isSuccess = true) := by
  constructor
  · have h := create_token_run_spec env wallet name symbol description supply decimals
      image_url false true network now mint account true hbal hmint hacct hmt hver
    rw [h]
    simp [TokenResult.authorityRevocation, revocationOutcome]
  · intro rm rf
    have h := create_token_run_spec env wallet name symbol description supply decimals
      image_url rm rf network now mint account true hbal hmint hacct hmt hver
    rw [h]
    simp [TokenResult.isSuccess]

/-- Witness for c7_freeze_only_revocation at a concrete environment where
the freeze-revocation call itself fails: the freeze key is present with
outcome false, the mint key is absent, and the run is still a success. -/
theorem c7_freeze_only_revocation_witness :
    ((create_token envFreezeFail "wallet.json" "Test" "TST" "" 500 6 ""
        false true "devnet" "T0").result.authorityRevocation =
      some { mint_authority_revoked := none,
             freeze_authority_revoked :=
               some (revoke_freeze_authority envFreezeFail (some mintAddr)).1 }) ∧
    (∀ rm rf : Bool,
      (create_token envFreezeFail "wallet.json" "Test" "TST" "" 500 6 ""
          rm rf "devnet" "T0").result.isSuccess = true) :=
  c7_freeze_only_revocation envFreezeFail "wallet.json" "Test" "TST" "" 500 6 ""
    "devnet" "T0" mintAddr acctAddr
    (by with_unfolding_all decide) (by with_unfolding_all decide)
    (by with_unfolding_all decide) (by with_unfolding_all decide)
    (by with_unfolding_all decide)

/-- A Report Renderer environment whose two queries succeed. -/
def reportEnvOK : ReportEnv :=
  { supplyRes := .ok "500", accountRes := .ok "raw account json", accountJsonParses := true }

/-- C8: with the metadata file absent, generate_html_report still yields a
complete document (the function is total, mirroring that load_metadata
returns the empty dict instead of raising): every metadata-derived field
takes its source-defined fallback, the image section is omitted, the raw
metadata dump is the empty record, and the identity fields are rendered as
always. -/
theorem c8_missing_metadata_fallbacks (env : ReportEnv) (fs : FS)
    (mint network wallet now : String)
    (h : fs.metadataFile = none) :
    ((generate_html_report env fs mint network wallet now).name = "N/A") ∧
    ((generate_html_report env fs mint network wallet now).symbol = "N/A") ∧
    ((generate_html_report env fs mint network wallet now).description = "N/A") ∧
    ((generate_html_report env fs mint network wallet now).decimals = "N/A") ∧
    ((generate_html_report env fs mint network wallet now).created = "N/A") ∧
    ((generate_html_report env fs mint network wallet now).titleName = "Unknown Token") ∧
    ((generate_html_report env fs mint network wallet now).headerName = "Token Creation Report") ∧
    ((generate_html_report env fs mint network wallet now).imageSection = none) ∧
    ((generate_html_report env fs mint network wallet now).rawMetadata = none) ∧
    ((generate_html_report env fs mint network wallet now).mintAddress = mint) ∧
    ((generate_html_report env fs mint network wallet now).explorerUrl =
      reportExplorerUrl network mint) := by
  unfold generate_html_report load_metadata
  rw [h]
  simp

/-- Witness for c8_missing_metadata_fallbacks on an empty working
directory. -/
theorem c8_missing_metadata_fallbacks_witness :
    ((generate_html_report reportEnvOK emptyFS mintAddr "devnet" "" "T0").name = "N/A") ∧
    ((generate_html_report reportEnvOK emptyFS mintAddr "devnet" "" "T0").symbol = "N/A") ∧
    ((generate_html_report reportEnvOK emptyFS mintAddr "devnet" "" "T0").description = "N/A") ∧
    ((generate_html_report reportEnvOK emptyFS mintAddr "devnet" "" "T0").decimals = "N/A") ∧
    ((generate_html_report reportEnvOK emptyFS mintAddr "devnet" "" "T0").created = "N/A") ∧
    ((generate_html_report reportEnvOK emptyFS mintAddr "devnet" "" "T0").titleName = "Unknown Token") ∧
    ((generate_html_report reportEnvOK emptyFS mintAddr "devnet" "" "T0").headerName = "Token Creation Report") ∧
    ((generate_html_report reportEnvOK emptyFS mintAddr "devnet" "" "T0").imageSection = none) ∧
    ((generate_html_report reportEnvOK emptyFS mintAddr "devnet" "" "T0").rawMetadata = none) ∧
    ((generate_html_report reportEnvOK emptyFS mintAddr "devnet" "" "T0").mintAddress = mintAddr) ∧
    ((generate_html_report reportEnvOK emptyFS mintAddr "devnet" "" "T0").explorerUrl =
      reportExplorerUrl "devnet" mintAddr) :=
  c8_missing_metadata_fallbacks reportEnvOK emptyFS mintAddr "devnet" "" "T0" rfl

/-- C9: for every mint address the explorer link is exactly one of the two
fixed templates, in both the rendered report (reportExplorerUrl, which is
the explorerUrl field of every generated document) and the Provisioner's
success banner (mainExplorerUrl): the bare address URL on mainnet and the
cluster-suffixed URL on devnet — the only two network values the CLIs
accept. -/
theorem c9_explorer_url_templates (mint : String) :
    (reportExplorerUrl "mainnet" mint = "https://explorer.solana.com/address/" ++ mint) ∧
    (reportExplorerUrl "devnet" mint =
      "https://explorer.solana.com/address/" ++ mint ++ "?cluster=devnet") ∧
    (mainExplorerUrl "mainnet" mint = "https://explorer.solana.com/address/" ++ mint) ∧
    (mainExplorerUrl "devnet" mint =
      "https://explorer.solana.com/address/" ++ mint ++ "?cluster=devnet") ∧
    (∀ (env : ReportEnv) (fs : FS) (wallet now network : String),
      (generate_html_report env fs mint network wallet now).explorerUrl =
        reportExplorerUrl network mint) := by
  refine ⟨?_, ?_, ?_, ?_, ?_⟩
  · unfold reportExplorerUrl
    rw [if_pos rfl]
  · unfold reportExplorerUrl
    rw [if_neg (by decide)]
  · unfold mainExplorerUrl
    rw [if_neg (by decide)]
  · unfold mainExplorerUrl
    rw [if_pos rfl]
  · intro env fs wallet now network
    rfl

/-- C10: whenever the balance query itself fails — nonzero exit, empty
stdout, or an unparseable first token — get_wallet_balance swallows the
error and returns 0.0, so create_token reports the run as the
insufficient-funds failure rather than as an external-tool invocation
error. -/
theorem c10_balance_query_failure_insufficient (env : Env)
    (wallet name symbol description : String) (supply decimals : Int)
    (image_url : String) (rm rf : Bool) (network now : String)
    (h : balanceQueryFails env.balanceRes = true) :
    ((get_wallet_balance env wallet).1 = 0) ∧
    ((create_token env wallet name symbol description supply decimals image_url
        rm rf network now).result =
      TokenResult.failure "Insufficient SOL balance for token creation" network) := by
  have hz := gwb_zero env wallet h
  refine ⟨hz, ?_⟩
  have hlt : (get_wallet_balance env wallet).1 < 1/100 := by
    rw [hz]
    norm_num
  exact (create_token_insufficient env wallet name symbol description supply decimals
    image_url rm rf network now hlt).1

/-- Witness for c10_balance_query_failure_insufficient at a concrete
environment whose balance query exits nonzero. -/
theorem c10_balance_query_failure_insufficient_witness :
    ((get_wallet_balance envBalanceFail "wallet.json").1 = 0) ∧
    ((create_token envBalanceFail "wallet.json" "Test" "TST" "" 500 6 ""
        false false "devnet" "T0").result =
      TokenResult.failure "Insufficient SOL balance for token creation" "devnet") :=
  c10_balance_query_failure_insufficient envBalanceFail "wallet.json" "Test" "TST" ""
    500 6 "" false false "devnet" "T0" (by with_unfolding_all decide)
